import Mathlib

/-!
Shallow embedding of the `Vector` class from
`src/C02ObjectOrientedProgramming/Reinforcement/r14.py`.

Coordinates are modelled as `Int` (Python integers).  Python exceptions are
modelled by the inductive `PyErr`, keeping the exception class and message
apart so that distinct Python exception classes stay distinguishable.
Fallible operations return `Except PyErr _`.

Python list indexing (`self._coords[j]`, used by `__getitem__` and
`__setitem__`) is embedded by `pyGet` / `pySet`: a negative index `j` means
`j + len`, and any index outside `[-len, len-1]` raises `IndexError`.

The demo script aliases and mutates vectors, so `__add__` / `__sub__` are
embedded twice over: `binS` runs the method body on an explicit store
(a heap of coordinate lists, vectors being indices into it), recording the
allocation of the fresh `result` vector and every `result[j] = ...` write;
the value-level `Vector.binOp` is the canonical two-object run of `binS`.
-/

namespace R14

/-- Python exception classes that the code can raise, with their message. -/
inductive PyErr where
  | typeError : String → PyErr
  | valueError : String → PyErr
  | indexError : String → PyErr
  | assertionError : String → PyErr
  | attributeError : String → PyErr
deriving Repr, DecidableEq

/-- The `ValueError('dimensions must agree')` raised by `__add__`, `__sub__`,
`__lt__` and `__le__`; the spec calls this error kind `DimensionMismatch`. -/
def dimensionMismatch : PyErr := .valueError "dimensions must agree"

/-- `PyErr.isTypeError e` holds exactly when `e` is of Python class
`TypeError`. -/
def PyErr.isTypeError : PyErr → Bool
  | .typeError _ => true
  | _ => false

/-- Resolve a Python list index: negative means from the end; out of range
is `none`. -/
def pyIdx (n : Nat) (j : Int) : Option Nat :=
  let j2 := if j < 0 then j + (n : Int) else j
  if 0 ≤ j2 ∧ j2 < (n : Int) then some j2.toNat else none

/-- Python `l[j]` on a list: `IndexError('list index out of range')` when the
index is invalid. -/
def pyGet (l : List Int) (j : Int) : Except PyErr Int :=
  match pyIdx l.length j with
  | some k => .ok (l.getD k 0)
  | none => .error (.indexError "list index out of range")

/-- Python `l[j] = x` on a list: `IndexError('list assignment index out of
range')` when the index is invalid. -/
def pySet (l : List Int) (j : Int) (x : Int) : Except PyErr (List Int) :=
  match pyIdx l.length j with
  | some k => .ok (l.set k x)
  | none => .error (.indexError "list assignment index out of range")

/-- Python list `<` (lexicographic). -/
def pyListLt : List Int → List Int → Bool
  | [], [] => false
  | [], _ :: _ => true
  | _ :: _, [] => false
  | a :: as, b :: bs => if a < b then true else if b < a then false else pyListLt as bs

/-- Python list `<=` (lexicographic). -/
def pyListLe : List Int → List Int → Bool
  | [], _ => true
  | _ :: _, [] => false
  | a :: as, b :: bs => if a < b then true else if b < a then false else pyListLe as bs

/-- The `Vector` class: its only attribute is the coordinate list
`self._coords`. -/
structure Vector where
  _coords : List Int
deriving Repr, DecidableEq

/-- `Vector.__init__` on an `int` argument `d`: `self._coords = [0] * d`
(Python yields `[]` when `d < 0`). -/
def Vector.init (d : Int) : Vector := ⟨List.replicate d.toNat 0⟩

/-- `Vector.__init__` on an iterable of numbers:
`self._coords = [val for val in d]`. -/
def Vector.ofIter (l : List Int) : Vector := ⟨l⟩

/-- `Vector.__len__`: `len(self._coords)`. -/
def Vector.len (v : Vector) : Nat := v._coords.length

/-- `Vector.__getitem__`: `return self._coords[j]`. -/
def Vector.getI (v : Vector) (j : Int) : Except PyErr Int := pyGet v._coords j

/-- `Vector.__setitem__`: `self._coords[j] = val` (returning the mutated
vector). -/
def Vector.setI (v : Vector) (j : Int) (x : Int) : Except PyErr Vector :=
  match pySet v._coords j x with
  | .ok l => .ok ⟨l⟩
  | .error e => .error e

/-- A heap of Python objects of class `Vector`: entry `i` is the `_coords`
list of the object with identity `i`. -/
abbrev Store := List (List Int)

/-- `result[k] = x` on the store: `__setitem__` applied to the object at
heap index `r`. -/
def setAtS (s : Store) (r : Nat) (k : Int) (x : Int) : Except PyErr Store :=
  match pySet (s.getD r []) k x with
  | .ok l => .ok (s.set r l)
  | .error e => .error e

/-- The loop `for j in range(len(self)): result[j] = self[j] op other[j]`
shared by `__add__` and `__sub__`, run on the store: `i`, `j`, `r` are the
heap identities of `self`, `other` and `result`. -/
def elemLoopS (op : Int → Int → Int) (i j r : Nat) : List Nat → Store → Except PyErr Store
  | [], s => .ok s
  | k :: ks, s =>
    match pyGet (s.getD i []) (k : Int), pyGet (s.getD j []) (k : Int) with
    | .ok x, .ok y =>
      match setAtS s r (k : Int) (op x y) with
      | .ok s2 => elemLoopS op i j r ks s2
      | .error e => .error e
    | .error e, _ => .error e
    | _, .error e => .error e

/-- Body of `__add__` / `__sub__` on the store (`op` is `+` resp. `-`):
check `len(self) != len(other)`, allocate `result = Vector(len(self))` as a
fresh heap object, run the elementwise loop, return the result's identity. -/
def binS (op : Int → Int → Int) (s : Store) (i j : Nat) : Except PyErr (Store × Nat) :=
  if (s.getD i []).length ≠ (s.getD j []).length then .error dimensionMismatch
  else
    match elemLoopS op i j s.length (List.range (s.getD i []).length)
        (s ++ [(Vector.init ((s.getD i []).length : Int))._coords]) with
    | .ok s2 => .ok (s2, s.length)
    | .error e => .error e

/-- `Vector.__add__` on the store. -/
def addS (s : Store) (i j : Nat) : Except PyErr (Store × Nat) :=
  binS (· + ·) s i j

/-- `Vector.__sub__` on the store. -/
def subS (s : Store) (i j : Nat) : Except PyErr (Store × Nat) :=
  binS (· - ·) s i j

/-- Value-level `__add__` / `__sub__`: run the store semantics on a
two-object heap holding the operands and read off the result's coordinates. -/
def Vector.binOp (op : Int → Int → Int) (a b : Vector) : Except PyErr Vector :=
  match binS op [a._coords, b._coords] 0 1 with
  | .ok (s, r) => .ok ⟨s.getD r []⟩
  | .error e => .error e

/-- `Vector.__add__` (value level). -/
def Vector.add (a b : Vector) : Except PyErr Vector := Vector.binOp (· + ·) a b

/-- `Vector.__sub__` (value level). -/
def Vector.sub (a b : Vector) : Except PyErr Vector := Vector.binOp (· - ·) a b

/-- `Vector.__neg__`: `Vector(-e for e in self)`. -/
def Vector.neg (v : Vector) : Vector := ⟨v._coords.map (fun e => -e)⟩

/-- A Python value appearing as the right operand of `*` or `==`: an `int`,
a `Vector`, a `str`, or a plain `list` of numbers. -/
inductive PyObj where
  | int : Int → PyObj
  | vec : Vector → PyObj
  | str : String → PyObj
  | list : List Int → PyObj
deriving Repr, DecidableEq

/-- Python `type(x)` as rendered inside an f-string. -/
def PyObj.typeName : PyObj → String
  | .int _ => "<class 'int'>"
  | .vec _ => "<class '__main__.Vector'>"
  | .str _ => "<class 'str'>"
  | .list _ => "<class 'list'>"

/-- The type word used in Python attribute-error messages. -/
def PyObj.typeShort : PyObj → String
  | .int _ => "int"
  | .vec _ => "Vector"
  | .str _ => "str"
  | .list _ => "list"

/-- Whether the value is an instance of `Vector`. -/
def PyObj.isVec : PyObj → Bool
  | .vec _ => true
  | _ => false

/-- Whether the value is a numeric scalar (`isinstance(x, (float, int))`). -/
def PyObj.isNum : PyObj → Bool
  | .int _ => true
  | _ => false

/-- Python attribute access `x._coords`: succeeds only on a `Vector`,
otherwise `AttributeError`. -/
def PyObj.coordsAttr : PyObj → Except PyErr (List Int)
  | .vec w => .ok w._coords
  | o => .error (.attributeError ("'" ++ o.typeShort ++ "' object has no attribute '_coords'"))

/-- `Vector.__mul__`: assert the operand is `float`/`int`/`Vector` (an
`AssertionError` reporting `type(other)` otherwise); elementwise product via
`zip` with a `Vector`, scaling with a scalar. -/
def Vector.mulO (v : Vector) (other : PyObj) : Except PyErr Vector :=
  if ¬ (other.isVec = true ∨ other.isNum = true) then
    .error (.assertionError ("can't multiply Vector and " ++ other.typeName))
  else
    match other with
    | .vec w => .ok ⟨List.zipWith (fun a b => a * b) v._coords w._coords⟩
    | .int c => .ok ⟨v._coords.map (fun e => e * c)⟩
    | _ => .error (.assertionError ("can't multiply Vector and " ++ other.typeName))

/-- `Vector.__eq__`: `self._coords == other._coords` (an attribute access on
`other` that fails on non-`Vector` operands). -/
def Vector.eqO (v : Vector) (other : PyObj) : Except PyErr Bool :=
  match other.coordsAttr with
  | .ok c => .ok (decide (v._coords = c))
  | .error e => .error e

/-- `Vector.__ne__`: `not self == other`. -/
def Vector.neO (v : Vector) (other : PyObj) : Except PyErr Bool :=
  match v.eqO other with
  | .ok b => .ok (!b)
  | .error e => .error e

/-- `Vector.__lt__`: length check, then Python list `<`. -/
def Vector.lt (a b : Vector) : Except PyErr Bool :=
  if a.len ≠ b.len then .error dimensionMismatch
  else .ok (pyListLt a._coords b._coords)

/-- `Vector.__le__`: length check, then Python list `<=`. -/
def Vector.le (a b : Vector) : Except PyErr Bool :=
  if a.len ≠ b.len then .error dimensionMismatch
  else .ok (pyListLe a._coords b._coords)

/-- `Vector.__mul__` with a `Vector` operand, on the store: allocates the
fresh result object `Vector(a * b for a, b in zip(self, other))`. -/
def mulVecS (s : Store) (i j : Nat) : Store × Nat :=
  (s ++ [List.zipWith (fun a b => a * b) (s.getD i []) (s.getD j [])], s.length)

/-- `Vector.__mul__` with a scalar operand, on the store. -/
def mulNumS (s : Store) (i : Nat) (c : Int) : Store × Nat :=
  (s ++ [(s.getD i []).map (fun e => e * c)], s.length)

/-- `Vector.__neg__` on the store: allocates the fresh result object
`Vector(-e for e in self)`. -/
def negS (s : Store) (i : Nat) : Store × Nat :=
  (s ++ [(s.getD i []).map (fun e => -e)], s.length)

/-- Frame property of one store-level operation: when it produces a result
object, that object is fresh (its identity is distinct from both operands and
outside the original heap) and the operands' coordinate lists are unchanged. -/
def FrameOk : Except PyErr (Store × Nat) → Store → Nat → Nat → Prop
  | .error _, _, _, _ => True
  | .ok (s2, r), s, i, j =>
      r ≠ i ∧ r ≠ j ∧ s.length ≤ r ∧
      s2.getD i [] = s.getD i [] ∧ s2.getD j [] = s.getD j []

/-! ### Basic lemmas about the Python primitives -/

theorem pyIdx_nat (n k : Nat) (hk : k < n) : pyIdx n (k : Int) = some k := by
  unfold pyIdx
  have h0 : ¬ ((k : Int) < 0) := by omega
  simp only [h0, if_false]
  rw [if_pos (by constructor <;> omega)]
  simp

theorem pyGet_nat (l : List Int) (k : Nat) (hk : k < l.length) :
    pyGet l (k : Int) = .ok (l.getD k 0) := by
  unfold pyGet
  rw [pyIdx_nat _ _ hk]

theorem pySet_nat (l : List Int) (k : Nat) (x : Int) (hk : k < l.length) :
    pySet l (k : Int) x = .ok (l.set k x) := by
  unfold pySet
  rw [pyIdx_nat _ _ hk]

theorem getD_set_ne (s : Store) (r m : Nat) (l : List Int) (h : m ≠ r) :
    (s.set r l).getD m [] = s.getD m [] := by
  simp [List.getD_eq_getElem?_getD, List.getElem?_set_ne (Ne.symm h)]

theorem getD_set_self (s : Store) (r : Nat) (l : List Int) (h : r < s.length) :
    (s.set r l).getD r [] = l := by
  simp [List.getD_eq_getElem?_getD, List.getElem?_set_self h]

theorem getD_append_left (s t : Store) (m : Nat) (h : m < s.length) :
    (s ++ t).getD m [] = s.getD m [] := by
  simp [List.getD_eq_getElem?_getD, List.getElem?_append_left h]

theorem getD_append_length (s : Store) (c : List Int) :
    (s ++ [c]).getD s.length [] = c := by
  simp [List.getD_eq_getElem?_getD, List.getElem?_append_right (Nat.le_refl _)]

theorem set_getD_self (s : Store) (r : Nat) (h : r < s.length) :
    s.set r (s.getD r []) = s := by
  apply List.ext_getElem?
  intro n
  rcases eq_or_ne n r with rfl | hn
  · simp [List.getElem?_set_self h, List.getD_eq_getElem?_getD,
      List.getElem?_eq_getElem h]
  · simp [List.getElem?_set_ne (Ne.symm hn)]

theorem set_append_length (s : Store) (c X : List Int) :
    (s ++ [c]).set s.length X = s ++ [X] := by
  induction s with
  | nil => rfl
  | cons h t ih => simp [ih]

/-! ### The elementwise loop computes a `foldl` of writes -/

theorem foldl_set_length (f : Nat → Int) (js : List Nat) (l0 : List Int) :
    (js.foldl (fun acc k => acc.set k (f k)) l0).length = l0.length := by
  induction js generalizing l0 with
  | nil => rfl
  | cons j js ih => simp [List.foldl_cons, ih, List.length_set]

theorem foldl_set_getElem? (f : Nat → Int) (js : List Nat) (l0 : List Int) (m : Nat) :
    (js.foldl (fun acc k => acc.set k (f k)) l0)[m]? =
      if m ∈ js ∧ m < l0.length then some (f m) else l0[m]? := by
  induction js generalizing l0 with
  | nil => simp
  | cons j js ih =>
    rw [List.foldl_cons, ih]
    by_cases h1 : m ∈ js ∧ m < l0.length
    · rw [if_pos (by simpa using h1), if_pos (by exact ⟨by simp [h1.1], h1.2⟩)]
    · rcases eq_or_ne m j with rfl | hmj
      · by_cases hm : m < l0.length
        · rw [if_neg (by simpa [hm] using h1), if_pos ⟨by simp, hm⟩,
            List.getElem?_set_self hm]
        · rw [if_neg (by simpa using h1), if_neg (by simp [hm]),
            List.getElem?_set_self' ]
          have : l0[m]? = none := by
            rw [List.getElem?_eq_none]; omega
          simp [this]
      · rw [if_neg (by simpa [hmj] using h1),
          if_neg (by rintro ⟨hmem, hlt⟩; simp [hmj] at hmem; exact h1 ⟨hmem, hlt⟩),
          List.getElem?_set_ne (Ne.symm hmj)]

theorem foldl_set_range (f : Nat → Int) (n : Nat) (l0 : List Int) (hc : l0.length = n) :
    (List.range n).foldl (fun acc k => acc.set k (f k)) l0 = (List.range n).map f := by
  apply List.ext_getElem?
  intro m
  rw [foldl_set_getElem?]
  by_cases hm : m < n
  · rw [if_pos ⟨by simpa using hm, by omega⟩]
    simp [List.getElem?_map, List.getElem?_range hm]
  · rw [if_neg (by simp [hm])]
    have h1 : l0[m]? = none := by rw [List.getElem?_eq_none]; omega
    have h2 : ((List.range n).map f)[m]? = none := by
      rw [List.getElem?_eq_none]; simpa using hm
    rw [h1, h2]

/-! ### zipWith helpers -/

theorem range_map_getD_zipWith (op : Int → Int → Int) (a b : List Int)
    (h : a.length = b.length) :
    (List.range a.length).map (fun k => op (a.getD k 0) (b.getD k 0)) =
      List.zipWith op a b := by
  induction a generalizing b with
  | nil => simp
  | cons x as ih =>
    cases b with
    | nil => simp at h
    | cons y bs =>
      have h2 : as.length = bs.length := by simpa using h
      simp only [List.length_cons, List.range_succ_eq_map, List.map_cons, List.map_map,
        List.getD_cons_zero, List.zipWith_cons_cons, Function.comp, List.getD_cons_succ]
      exact congrArg (List.cons (op x y)) (ih bs h2)

theorem zipWith_getD (op : Int → Int → Int) (a b : List Int) (k : Nat)
    (hk : k < a.length) (hk2 : k < b.length) :
    (List.zipWith op a b).getD k 0 = op (a.getD k 0) (b.getD k 0) := by
  induction a generalizing b k with
  | nil => simp at hk
  | cons x as ih =>
    cases b with
    | nil => simp at hk2
    | cons y bs =>
      cases k with
      | zero => simp
      | succ k =>
        simp only [List.zipWith_cons_cons, List.getD_cons_succ]
        exact ih bs k (by simpa using hk) (by simpa using hk2)

theorem zipWith_sub_add (a b : List Int) (h : a.length = b.length) :
    List.zipWith (· + ·) (List.zipWith (· - ·) a b) b = a := by
  induction a generalizing b with
  | nil => simp
  | cons x as ih =>
    cases b with
    | nil => simp at h
    | cons y bs =>
      simp only [List.zipWith_cons_cons, sub_add_cancel]
      exact congrArg (List.cons x) (ih bs (by simpa using h))

theorem zipWith_add_neg (l : List Int) :
    List.zipWith (· + ·) l (l.map (fun e => -e)) = List.replicate l.length 0 := by
  induction l with
  | nil => rfl
  | cons x xs ih => simp [List.replicate_succ, ih]

/-! ### Characterising the store-level loop and `__add__` / `__sub__` -/

theorem elemLoopS_ok (op : Int → Int → Int) (i j r : Nat) (ks : List Nat)
    (hir : i ≠ r) (hjr : j ≠ r) :
    ∀ s : Store, r < s.length →
    (∀ k ∈ ks, k < (s.getD i []).length ∧ k < (s.getD j []).length ∧
      k < (s.getD r []).length) →
    elemLoopS op i j r ks s =
      .ok (s.set r (ks.foldl
        (fun acc k => acc.set k (op ((s.getD i []).getD k 0) ((s.getD j []).getD k 0)))
        (s.getD r []))) := by
  induction ks with
  | nil =>
    intro s hr _
    simp only [elemLoopS, List.foldl_nil, set_getD_self s r hr]
  | cons k ks ih =>
    intro s hr hk
    obtain ⟨hki, hkj, hkr⟩ := hk k (List.mem_cons_self k ks)
    simp only [elemLoopS, pyGet_nat _ _ hki, pyGet_nat _ _ hkj, setAtS,
      pySet_nat _ _ _ hkr]
    set v := op ((s.getD i []).getD k 0) ((s.getD j []).getD k 0) with hv
    set s2 := s.set r ((s.getD r []).set k v) with hs2
    have hgi : s2.getD i [] = s.getD i [] := getD_set_ne s r i _ hir
    have hgj : s2.getD j [] = s.getD j [] := getD_set_ne s r j _ hjr
    have hgr : s2.getD r [] = (s.getD r []).set k v := getD_set_self s r _ hr
    have hr2 : r < s2.length := by simpa [hs2] using hr
    have hk2 : ∀ k2 ∈ ks, k2 < (s2.getD i []).length ∧ k2 < (s2.getD j []).length ∧
        k2 < (s2.getD r []).length := by
      intro k2 hmem
      obtain ⟨h1, h2, h3⟩ := hk k2 (List.mem_cons_of_mem _ hmem)
      exact ⟨by rwa [hgi], by rwa [hgj], by rw [hgr, List.length_set]; exact h3⟩
    rw [ih s2 hr2 hk2]
    simp only [hgi, hgj, hgr, hs2, List.set_set, List.foldl_cons, hv]

theorem binS_ok (op : Int → Int → Int) (s : Store) (i j : Nat)
    (hi : i < s.length) (hj : j < s.length)
    (hl : (s.getD i []).length = (s.getD j []).length) :
    binS op s i j =
      .ok (s ++ [List.zipWith op (s.getD i []) (s.getD j [])], s.length) := by
  have hne : ¬ ((s.getD i []).length ≠ (s.getD j []).length) := fun hcon => hcon hl
  have hinit : (Vector.init (((s.getD i []).length : Nat) : Int))._coords =
      List.replicate (s.getD i []).length 0 := by
    simp [Vector.init]
  have hg1i : (s ++ [(Vector.init (((s.getD i []).length : Nat) : Int))._coords]).getD i []
      = s.getD i [] := getD_append_left s _ i hi
  have hg1j : (s ++ [(Vector.init (((s.getD i []).length : Nat) : Int))._coords]).getD j []
      = s.getD j [] := getD_append_left s _ j hj
  have hg1r : (s ++ [(Vector.init (((s.getD i []).length : Nat) : Int))._coords]).getD s.length []
      = List.replicate (s.getD i []).length 0 := by
    rw [getD_append_length]; exact hinit
  have hloop := elemLoopS_ok op i j s.length (List.range (s.getD i []).length)
    (by omega) (by omega)
    (s ++ [(Vector.init (((s.getD i []).length : Nat) : Int))._coords])
    (by simp)
    (by
      intro k hmem
      rw [hg1i, hg1j, hg1r]
      simp only [List.mem_range] at hmem
      exact ⟨hmem, by omega, by simpa using hmem⟩)
  simp only [hg1i, hg1j, hg1r] at hloop
  rw [foldl_set_range _ _ _ (List.length_replicate _ _)] at hloop
  rw [range_map_getD_zipWith op _ _ hl] at hloop
  unfold binS
  rw [if_neg hne, hloop, set_append_length]

theorem binOp_ok (op : Int → Int → Int) (a b : Vector) (h : a.len = b.len) :
    Vector.binOp op a b = .ok ⟨List.zipWith op a._coords b._coords⟩ := by
  unfold Vector.binOp
  rw [binS_ok op [a._coords, b._coords] 0 1 (by simp) (by simp)
    (by simpa [Vector.len] using h)]
  rfl

theorem binOp_err (op : Int → Int → Int) (a b : Vector) (h : a.len ≠ b.len) :
    Vector.binOp op a b = .error dimensionMismatch := by
  unfold Vector.binOp binS
  rw [if_pos (by simpa [Vector.len] using h)]

theorem add_ok (a b : Vector) (h : a.len = b.len) :
    Vector.add a b = .ok ⟨List.zipWith (· + ·) a._coords b._coords⟩ :=
  binOp_ok (· + ·) a b h

theorem sub_ok (a b : Vector) (h : a.len = b.len) :
    Vector.sub a b = .ok ⟨List.zipWith (· - ·) a._coords b._coords⟩ :=
  binOp_ok (· - ·) a b h

/-! ### Claim theorems -/

/-- C1: for every non-negative integer `d`, `Vector(d)` produces a vector
whose length is `d` and whose every coordinate equals zero. -/
theorem c1_init_zero (d : Int) (h : 0 ≤ d) :
    ((Vector.init d).len : Int) = d ∧
    ∀ k : Nat, k < (Vector.init d).len → (Vector.init d).getI (k : Int) = .ok 0 := by
  constructor
  · simp [Vector.init, Vector.len, Int.toNat_of_nonneg h]
  · intro k hk
    unfold Vector.getI
    rw [pyGet_nat _ _ (by simpa [Vector.len] using hk)]
    simp [Vector.init]

theorem c1_init_zero_witness :
    (0 : Int) ≤ 3 ∧ ((Vector.init 3).len : Int) = 3 ∧
      (Vector.init 3).getI 1 = .ok 0 :=
  ⟨by decide, (c1_init_zero 3 (by decide)).1,
    (c1_init_zero 3 (by decide)).2 1 (by decide)⟩

/-- C2: on operands of unequal lengths, addition, subtraction, and the
ordering comparisons `<`, `<=` all raise the `DimensionMismatch` error
(`ValueError('dimensions must agree')`), producing no result vector. -/
theorem c2_dim_mismatch (a b : Vector) (h : a.len ≠ b.len) :
    a.add b = .error dimensionMismatch ∧
    a.sub b = .error dimensionMismatch ∧
    a.lt b = .error dimensionMismatch ∧
    a.le b = .error dimensionMismatch := by
  refine ⟨binOp_err _ a b h, binOp_err _ a b h, ?_, ?_⟩ <;>
    simp [Vector.lt, Vector.le, h]

theorem c2_dim_mismatch_witness :
    (Vector.mk [1]).len ≠ (Vector.mk []).len ∧
    (Vector.mk [1]).add ⟨[]⟩ = .error dimensionMismatch ∧
    (Vector.mk [1]).sub ⟨[]⟩ = .error dimensionMismatch ∧
    (Vector.mk [1]).lt ⟨[]⟩ = .error dimensionMismatch ∧
    (Vector.mk [1]).le ⟨[]⟩ = .error dimensionMismatch :=
  ⟨by decide, (c2_dim_mismatch ⟨[1]⟩ ⟨[]⟩ (by decide)).1,
    (c2_dim_mismatch ⟨[1]⟩ ⟨[]⟩ (by decide)).2.1,
    (c2_dim_mismatch ⟨[1]⟩ ⟨[]⟩ (by decide)).2.2.1,
    (c2_dim_mismatch ⟨[1]⟩ ⟨[]⟩ (by decide)).2.2.2⟩

/-- C9: for every negative integer `d`, `Vector(d)` succeeds (the `int`
branch of `__init__` runs `[0] * d`, which Python evaluates to `[]`) and
produces a vector of length `0`. -/
theorem c9_negative_dim (d : Int) (h : d < 0) :
    Vector.init d = ⟨[]⟩ ∧ (Vector.init d).len = 0 := by
  have h0 : d.toNat = 0 := Int.toNat_of_nonpos (le_of_lt h)
  constructor <;> simp [Vector.init, Vector.len, h0]

theorem c9_negative_dim_witness :
    (-5 : Int) < 0 ∧ Vector.init (-5) = ⟨[]⟩ ∧ (Vector.init (-5)).len = 0 :=
  ⟨by decide, (c9_negative_dim (-5) (by decide)).1, (c9_negative_dim (-5) (by decide)).2⟩

/-- C3: multiplying two vectors never checks lengths: it always succeeds,
yielding a vector whose length is the minimum of the two lengths and whose
coordinate `k` is the product of the operands' coordinates at `k`. -/
theorem c3_mul_zip (u v : Vector) :
    ∃ w : Vector, u.mulO (.vec v) = .ok w ∧
      w.len = min u.len v.len ∧
      ∀ k : Nat, k < min u.len v.len →
        w.getI (k : Int) = .ok (u._coords.getD k 0 * v._coords.getD k 0) := by
  refine ⟨⟨List.zipWith (fun a b => a * b) u._coords v._coords⟩, rfl, ?_, ?_⟩
  · simp [Vector.len, List.length_zipWith]
  · intro k hk
    obtain ⟨h1, h2⟩ := lt_min_iff.mp hk
    have hlen : k < (List.zipWith (fun a b => a * b) u._coords v._coords).length := by
      rw [List.length_zipWith]
      exact lt_min_iff.mpr ⟨h1, h2⟩
    unfold Vector.getI
    rw [pyGet_nat _ _ hlen, zipWith_getD _ _ _ _ h1 h2]

/-- Whether a `__mul__` outcome raised a `TypeError`-class exception. -/
def raisedTypeError : Except PyErr Vector → Bool
  | .error e => e.isTypeError
  | .ok _ => false

/-- C4 counterexample: multiplying the vector `<1, 2>` by the string
`"wesh"` raises `AssertionError` (from the `assert` statement), which is not
a `TypeError`-class exception, refuting the claimed `TypeError` class. -/
theorem c4_counterexample :
    Vector.mulO ⟨[1, 2]⟩ (.str "wesh") =
      .error (.assertionError "can't multiply Vector and <class 'str'>") ∧
    raisedTypeError (Vector.mulO ⟨[1, 2]⟩ (.str "wesh")) = false := by
  constructor <;> rfl

/-- C4 (amended): for every operand `x` that is neither a Vector nor a
numeric scalar, `v * x` fails with an `AssertionError` (not a `TypeError`)
whose message reports the offending operand's type. -/
theorem c4_mul_assertion (v : Vector) (x : PyObj)
    (h1 : x.isVec = false) (h2 : x.isNum = false) :
    v.mulO x =
      .error (.assertionError ("can't multiply Vector and " ++ x.typeName)) := by
  cases x <;> simp_all [Vector.mulO, PyObj.isVec, PyObj.isNum]

theorem c4_mul_assertion_witness :
    (PyObj.str "wesh").isVec = false ∧ (PyObj.str "wesh").isNum = false ∧
    Vector.mulO ⟨[1, 2]⟩ (.str "wesh") =
      .error (.assertionError ("can't multiply Vector and " ++ (PyObj.str "wesh").typeName)) :=
  ⟨rfl, rfl, c4_mul_assertion ⟨[1, 2]⟩ (.str "wesh") rfl rfl⟩

/-- C5: for equal-length vectors, `(a - b) + b == a` (the subtraction and
addition succeed, and `__eq__` on the final result and `a` returns `True`). -/
theorem c5_sub_add_cancel (a b : Vector) (h : a.len = b.len) :
    ((a.sub b).bind (fun c => c.add b)) = .ok a ∧
    ((a.sub b).bind (fun c => (c.add b).bind (fun d => d.eqO (.vec a)))) = .ok true := by
  have hc : (Vector.mk (List.zipWith (· - ·) a._coords b._coords)).len = b.len := by
    simp only [Vector.len, List.length_zipWith]
    have : a._coords.length = b._coords.length := h
    omega
  have hadd := add_ok ⟨List.zipWith (· - ·) a._coords b._coords⟩ b hc
  rw [zipWith_sub_add a._coords b._coords h] at hadd
  constructor
  · rw [sub_ok a b h]
    simpa [Except.bind] using hadd
  · rw [sub_ok a b h]
    simp only [Except.bind, hadd]
    simp [Vector.eqO, PyObj.coordsAttr]

theorem c5_sub_add_cancel_witness :
    (Vector.mk [5, 7]).len = (Vector.mk [2, 3]).len ∧
    (((Vector.mk [5, 7]).sub ⟨[2, 3]⟩).bind (fun c => c.add ⟨[2, 3]⟩)) = .ok ⟨[5, 7]⟩ ∧
    (((Vector.mk [5, 7]).sub ⟨[2, 3]⟩).bind
      (fun c => (c.add ⟨[2, 3]⟩).bind (fun d => d.eqO (.vec ⟨[5, 7]⟩)))) = .ok true :=
  ⟨by decide, (c5_sub_add_cancel ⟨[5, 7]⟩ ⟨[2, 3]⟩ (by decide)).1,
    (c5_sub_add_cancel ⟨[5, 7]⟩ ⟨[2, 3]⟩ (by decide)).2⟩

/-- C6: `-(-v) == v`, and `v + (-v)` succeeds and `== Vector(len(v))`, the
zero vector of the same length. -/
theorem c6_neg_involution (v : Vector) :
    v.neg.neg.eqO (.vec v) = .ok true ∧
    ((v.add v.neg).bind (fun w => w.eqO (.vec (Vector.init (v.len : Int))))) = .ok true := by
  constructor
  · simp [Vector.neg, Vector.eqO, PyObj.coordsAttr, List.map_map, Function.comp]
  · have hadd := add_ok v v.neg (by simp [Vector.len, Vector.neg])
    rw [hadd]
    simp [Except.bind, Vector.eqO, PyObj.coordsAttr, Vector.neg, zipWith_add_neg,
      Vector.init, Vector.len]

theorem pyIdx_some_iff (n : Nat) (j : Int) :
    (pyIdx n j).isSome = true ↔ (-(n : Int) ≤ j ∧ j < (n : Int)) := by
  simp only [pyIdx]
  split_ifs with h1 h2 h3 <;> simp <;> omega

theorem pyIdx_neg_shift (n : Nat) (j : Int) (h1 : j < 0) (h2 : -(n : Int) ≤ j) :
    pyIdx n j = pyIdx n (j + (n : Int)) := by
  simp only [pyIdx]
  rw [if_pos h1, if_neg (show ¬(j + (n : Int) < 0) by omega)]

theorem pyIdx_none (n : Nat) (j : Int) (h : ¬(-(n : Int) ≤ j ∧ j < (n : Int))) :
    pyIdx n j = none := by
  simp only [pyIdx]
  split_ifs with h1 h2 h3 <;> first | rfl | (exfalso; omega)

theorem pyGet_isOk (l : List Int) (j : Int) :
    (pyGet l j).isOk = (pyIdx l.length j).isSome := by
  unfold pyGet
  cases pyIdx l.length j <;> rfl

theorem pySet_isOk (l : List Int) (j x : Int) :
    (pySet l j x).isOk = (pyIdx l.length j).isSome := by
  unfold pySet
  cases pyIdx l.length j <;> rfl

/-- C7: indexed read and write succeed exactly when the index lies in
`[-len, len-1]`; a negative in-range index `j` addresses coordinate
`len + j`; and any index outside the range raises the `IndexOutOfRange`
error (`IndexError`). -/
theorem c7_index_bounds (v : Vector) (j x : Int) :
    ((v.getI j).isOk = true ↔ (-(v.len : Int) ≤ j ∧ j < (v.len : Int))) ∧
    ((v.setI j x).isOk = true ↔ (-(v.len : Int) ≤ j ∧ j < (v.len : Int))) ∧
    (j < 0 → -(v.len : Int) ≤ j →
      v.getI j = v.getI (j + (v.len : Int)) ∧
      v.setI j x = v.setI (j + (v.len : Int)) x) ∧
    (¬(-(v.len : Int) ≤ j ∧ j < (v.len : Int)) →
      v.getI j = .error (.indexError "list index out of range") ∧
      v.setI j x = .error (.indexError "list assignment index out of range")) := by
  refine ⟨?_, ?_, ?_, ?_⟩
  · rw [Vector.getI, pyGet_isOk]
    exact pyIdx_some_iff v._coords.length j
  · have : (v.setI j x).isOk = (pySet v._coords j x).isOk := by
      rw [Vector.setI]
      cases pySet v._coords j x <;> rfl
    rw [this, pySet_isOk]
    exact pyIdx_some_iff v._coords.length j
  · intro h1 h2
    have h2a : -(v._coords.length : Int) ≤ j := h2
    constructor
    · simp only [Vector.getI, pyGet, Vector.len]
      rw [pyIdx_neg_shift v._coords.length j h1 h2a]
    · simp only [Vector.setI, pySet, Vector.len]
      rw [pyIdx_neg_shift v._coords.length j h1 h2a]
  · intro h
    have hn := pyIdx_none v._coords.length j h
    constructor
    · rw [Vector.getI, pyGet, hn]
    · rw [Vector.setI, pySet, hn]

theorem c7_index_bounds_witness :
    ((-1 : Int) < 0 ∧ -((Vector.mk [1, 2, 3]).len : Int) ≤ -1) ∧
    (Vector.mk [1, 2, 3]).getI (-1) = (Vector.mk [1, 2, 3]).getI 2 ∧
    ¬(-((Vector.mk [1, 2, 3]).len : Int) ≤ 5 ∧ 5 < ((Vector.mk [1, 2, 3]).len : Int)) ∧
    (Vector.mk [1, 2, 3]).getI 5 = .error (.indexError "list index out of range") :=
  ⟨⟨by decide, by decide⟩,
    ((c7_index_bounds ⟨[1, 2, 3]⟩ (-1) 7).2.2.1 (by decide) (by decide)).1,
    by decide,
    ((c7_index_bounds ⟨[1, 2, 3]⟩ 5 7).2.2.2 (by decide)).1⟩

theorem frameOk_alloc (s : Store) (l : List Int) (i j : Nat)
    (hi : i < s.length) (hj : j < s.length) :
    FrameOk (.ok (s ++ [l], s.length)) s i j := by
  simp only [FrameOk]
  exact ⟨by omega, by omega, Nat.le_refl _,
    getD_append_left s _ i hi, getD_append_left s _ j hj⟩

/-- C8: each arithmetic operation (addition, subtraction, vector and scalar
multiplication, negation), run on the heap, leaves the operand objects'
coordinate lists unchanged and returns a freshly allocated object whose
identity is distinct from both operands. -/
theorem c8_frame (s : Store) (i j : Nat) (sc : Int)
    (hi : i < s.length) (hj : j < s.length) :
    FrameOk (addS s i j) s i j ∧
    FrameOk (subS s i j) s i j ∧
    FrameOk (.ok (mulVecS s i j)) s i j ∧
    FrameOk (.ok (mulNumS s i sc)) s i i ∧
    FrameOk (.ok (negS s i)) s i i := by
  have hbin : ∀ op : Int → Int → Int, FrameOk (binS op s i j) s i j := by
    intro op
    by_cases hl : (s.getD i []).length = (s.getD j []).length
    · rw [binS_ok op s i j hi hj hl]
      exact frameOk_alloc s _ i j hi hj
    · unfold binS
      rw [if_pos hl]
      simp only [FrameOk]
  exact ⟨hbin _, hbin _, frameOk_alloc s _ i j hi hj,
    frameOk_alloc s _ i i hi hi, frameOk_alloc s _ i i hi hi⟩

theorem c8_frame_witness :
    (0 : Nat) < ([[1, 2], [3, 4]] : Store).length ∧
    (1 : Nat) < ([[1, 2], [3, 4]] : Store).length ∧
    (FrameOk (addS [[1, 2], [3, 4]] 0 1) [[1, 2], [3, 4]] 0 1 ∧
     FrameOk (subS [[1, 2], [3, 4]] 0 1) [[1, 2], [3, 4]] 0 1 ∧
     FrameOk (.ok (mulVecS [[1, 2], [3, 4]] 0 1)) [[1, 2], [3, 4]] 0 1 ∧
     FrameOk (.ok (mulNumS [[1, 2], [3, 4]] 0 3)) [[1, 2], [3, 4]] 0 0 ∧
     FrameOk (.ok (negS [[1, 2], [3, 4]] 0)) [[1, 2], [3, 4]] 0 0) :=
  ⟨by decide, by decide, c8_frame [[1, 2], [3, 4]] 0 1 3 (by decide) (by decide)⟩

/-- C10: `==` and `!=` against any non-Vector operand (a plain list — even
one holding the very same coordinate values — a string, or an int) raise
`AttributeError` from reading `other._coords`, instead of returning a
boolean. -/
theorem c10_eq_attribute_error (v : Vector) (l : List Int) (t : String) (n : Int) :
    (v.eqO (.list l) = .error (.attributeError "'list' object has no attribute '_coords'") ∧
     v.neO (.list l) = .error (.attributeError "'list' object has no attribute '_coords'")) ∧
    (v.eqO (.str t) = .error (.attributeError "'str' object has no attribute '_coords'") ∧
     v.neO (.str t) = .error (.attributeError "'str' object has no attribute '_coords'")) ∧
    (v.eqO (.int n) = .error (.attributeError "'int' object has no attribute '_coords'") ∧
     v.neO (.int n) = .error (.attributeError "'int' object has no attribute '_coords'")) :=
  ⟨⟨rfl, rfl⟩, ⟨rfl, rfl⟩, ⟨rfl, rfl⟩⟩

end R14
